import Mathlib

/-!
Verification of the channel-identifier resolution and live-status detection
logic of the yt-live-monitor repository, via a shallow embedding of
`src/channel_parser.py`, `src/youtube_service.py` and `src/scheduler.py`.

Strings are modelled as lists of characters.  The external world (HTTP
fetches) is modelled as a function from URL to fetch outcome; a fetched HTML
page is abstracted by the two pieces of data the source ever reads from a
parsed document: the canonical-link target and the title `meta` content.
-/

/-- Strings are modelled as lists of characters. -/
abbrev Str := List Char

/-- ASCII whitespace characters removed by Python `str.strip()` (the data the
program handles is ASCII). -/
def isPySpace (c : Char) : Bool :=
  c == ' ' || c == '\t' || c == '\n' || c == '\r' || c == Char.ofNat 11 || c == Char.ofNat 12

/-- Python `str.strip()`: remove surrounding whitespace. -/
def pyStrip (s : Str) : Str :=
  ((s.dropWhile isPySpace).reverse.dropWhile isPySpace).reverse

/-- Does `s` begin with `p`?  (Python `str.startswith`, and literal anchoring
in regular expressions.) -/
def strBegins : Str → Str → Bool
  | [], _ => true
  | _ :: _, [] => false
  | p :: ps, c :: cs => p == c && strBegins ps cs

/-- Python substring containment (the `in` operator on strings). -/
def containsSub (p : Str) : Str → Bool
  | [] => strBegins p []
  | c :: t => strBegins p (c :: t) || containsSub p t

/-- One character of the regex class `[a-zA-Z0-9_-]` (ASCII letters and
digits, underscore, hyphen). -/
def isIdChar (c : Char) : Bool := c.isAlphanum || c == '_' || c == '-'

/-- Full (anchored) match of `^UC[a-zA-Z0-9_-]{22}$`: the `re.match` test the
source applies to the stripped input (the input is stripped first, so the
end anchor means end of string). -/
def fullMatchChannelId (s : Str) : Bool :=
  s.length == 24 && strBegins "UC".data s && (s.drop 2).all isIdChar

/-- One attempt of the unanchored regex `UC[a-zA-Z0-9_-]{22}` at the start of
`s`, returning the matched text on success.  `re.search` tries successive
start positions, each position being one such attempt. -/
def takeChannelIdAt (s : Str) : Option Str :=
  if strBegins "UC".data s && ((s.drop 2).take 22).length == 22
      && ((s.drop 2).take 22).all isIdChar
  then some ("UC".data ++ (s.drop 2).take 22)
  else none

/-- `re.search(CHANNEL_ID_PATTERN, s)`: the leftmost match of
`UC[a-zA-Z0-9_-]{22}` in `s`, if any. -/
def searchChannelId : Str → Option Str
  | [] => none
  | c :: t =>
    match takeChannelIdAt (c :: t) with
    | some m => some m
    | none => searchChannelId t

/-- The literal part of the watch-page regex. -/
def watchLit : Str := "youtube.com/watch?v=".data

/-- One attempt of the regex `youtube\.com/watch\?v=([a-zA-Z0-9_-]{11})` at
the start of `s`, returning capture group 1 (the video id) on success. -/
def takeWatchIdAt (s : Str) : Option Str :=
  if strBegins watchLit s && ((s.drop watchLit.length).take 11).length == 11
      && ((s.drop watchLit.length).take 11).all isIdChar
  then some ((s.drop watchLit.length).take 11)
  else none

/-- `re.search` of the watch-page pattern: leftmost match, returning the
captured 11-character video id. -/
def searchWatchId : Str → Option Str
  | [] => none
  | c :: t =>
    match takeWatchIdAt (c :: t) with
    | some v => some v
    | none => searchWatchId t

/-- Abstraction of a fetched, parsed HTML document: the two pieces of data the
source reads.  `canonical` is the `href` of `<link rel="canonical">` (`none`
when the element or the attribute is absent; `some []` models an empty
attribute, which Python treats as falsy).  `metaTitle` is the `content` of
`<meta name="title">` under the same convention. -/
structure Document where
  canonical : Option Str
  metaTitle : Option Str
deriving DecidableEq

/-- Outcome of one HTTP GET in `requests`: a `requests.RequestException`
(transport error, or the `HTTPError` raised by `raise_for_status` on
non-success status), any other exception, or a successfully fetched page. -/
inductive Fetch where
  | requestError (msg : Str)
  | otherError (msg : Str)
  | page (doc : Document)
deriving DecidableEq

/-- The external world: what each URL returns when fetched. -/
abbrev World := Str → Fetch

/-- Python exceptions distinguished by the handlers in the source. -/
inductive PyExn where
  | requestException (msg : Str)
  | parsingError (msg : Str)
  | otherException (msg : Str)
deriving DecidableEq

/-- `fetch_channel_id_from_web` (channel_parser.py lines 93-131): fetch a
page and extract a channel id from its canonical link; exceptions propagate
to the caller. -/
def fetch_channel_id_from_web (world : World) (url : Str) : Except PyExn Str :=
  match world url with
  | .requestError m => .error (.requestException m)
  | .otherError m => .error (.otherException m)
  | .page doc =>
    match doc.canonical with
    | none => .error (.parsingError ("Could not find canonical link in ".data ++ url))
    | some href =>
      if href.isEmpty then
        .error (.parsingError ("Could not find canonical link in ".data ++ url))
      else
        match searchChannelId href with
        | some cid => .ok cid
        | none => .error (.parsingError ("Could not extract channel ID from ".data ++ href))

instance : DecidableEq (Except Str Str) := fun a b =>
  match a, b with
  | .ok x, .ok y => if h : x = y then isTrue (by rw [h]) else isFalse (by simp [h])
  | .ok _, .error _ => isFalse (by simp)
  | .error _, .ok _ => isFalse (by simp)
  | .error x, .error y => if h : x = y then isTrue (by rw [h]) else isFalse (by simp [h])

/-- Result of the resolver together with the list of URLs it fetched, in
order (for stating the no-fetch properties). -/
structure ResolveOut where
  result : Except Str Str
  fetches : List Str
deriving DecidableEq

/-- One fallback fetch inside the `try` block of `extract_channel_id_from_url`:
a `requests.RequestException` is re-raised as `ParsingError("Network error: ...")`,
any other exception (including `ParsingError` from the fetch helper) as
`ParsingError("Failed to extract channel ID: ...")`. -/
def resolveFetch (world : World) (fetchUrl : Str) : ResolveOut :=
  match fetch_channel_id_from_web world fetchUrl with
  | .ok cid => ⟨.ok cid, [fetchUrl]⟩
  | .error (.requestException m) => ⟨.error ("Network error: ".data ++ m), [fetchUrl]⟩
  | .error (.parsingError m) =>
    ⟨.error ("Failed to extract channel ID: ".data ++ m), [fetchUrl]⟩
  | .error (.otherException m) =>
    ⟨.error ("Failed to extract channel ID: ".data ++ m), [fetchUrl]⟩

/-- The `try` block of `extract_channel_id_from_url` (lines 54-90): classify
the input by shape, build a fetch URL, and fetch; the final `raise` inside
the `try` is caught by the generic handler and re-wrapped. -/
def resolveTry (world : World) (url : Str) : ResolveOut :=
  if strBegins "@".data url then
    resolveFetch world ("https://www.youtube.com/".data ++ url)
  else if containsSub "youtube.com".data url && containsSub "@".data url then
    resolveFetch world url
  else if containsSub "youtube.com".data url && containsSub "/c/".data url then
    resolveFetch world url
  else if containsSub "youtube.com".data url && containsSub "/user/".data url then
    resolveFetch world url
  else if containsSub "youtube.com".data url || containsSub "youtu.be".data url then
    resolveFetch world url
  else if !(strBegins "http://".data url || strBegins "https://".data url) then
    resolveFetch world
      ("https://www.youtube.com/".data ++
        (if strBegins "@".data url then url else '@' :: url))
  else
    ⟨.error ("Failed to extract channel ID: Could not parse channel ID from: ".data ++ url), []⟩

/-- `extract_channel_id_from_url` (channel_parser.py lines 29-90).  The error
component carries the `ParsingError` message raised by the source. -/
def extract_channel_id_from_url (world : World) (url0 : Str) : ResolveOut :=
  let url := pyStrip url0
  if fullMatchChannelId url then ⟨.ok url, []⟩
  else
    match searchChannelId url with
    | some cid => ⟨.ok cid, []⟩
    | none => resolveTry world url

/-- The dictionary returned by `parse_channel_page` on success. -/
structure ParseOut where
  is_live : Bool
  livestream_url : Option Str
  title : Option Str
deriving DecidableEq

/-- `parse_channel_page` (channel_parser.py lines 134-187).  The internal
`ParsingError` for a missing/empty canonical link is caught by the trailing
generic handler and re-raised with the `Failed to parse channel page: `
message; the error component carries the final `ParsingError` message. -/
def parse_channel_page (doc : Document) : Except Str ParseOut :=
  match doc.canonical with
  | none =>
    .error "Failed to parse channel page: Could not find canonical link in channel page".data
  | some href =>
    if href.isEmpty then
      .error "Failed to parse channel page: Could not find canonical link in channel page".data
    else
      match searchWatchId href with
      | some vid =>
        .ok ⟨true, some ("https://www.youtube.com/watch?v=".data ++ vid),
          match doc.metaTitle with
          | some t => if t.isEmpty then none else some t
          | none => none⟩
      | none => .ok ⟨false, none, none⟩

/-- The 4-tuple returned by `check_channel_live_status`. -/
structure LiveStatus where
  is_live : Bool
  livestream_url : Option Str
  title : Option Str
  error : Option Str
deriving DecidableEq

/-- The `/live` URL built for a channel id (line 206). -/
def live_url (channel_id : Str) : Str :=
  "https://www.youtube.com/channel/".data ++ channel_id ++ "/live".data

/-- `check_channel_live_status` (channel_parser.py lines 190-226): fetch the
channel's `/live` page and parse it; every exception is converted to data in
the error component (`RequestException` handler, then `ParsingError` handler,
then the generic handler). -/
def check_channel_live_status (world : World) (channel_id : Str) : LiveStatus :=
  match world (live_url channel_id) with
  | .requestError m => ⟨false, none, none, some ("Network error: ".data ++ m)⟩
  | .otherError m => ⟨false, none, none, some ("Unexpected error: ".data ++ m)⟩
  | .page doc =>
    match parse_channel_page doc with
    | .ok r => ⟨r.is_live, r.livestream_url, r.title, none⟩
    | .error m => ⟨false, none, none, some m⟩

/-- Python truthiness of an optional string (`if x:` where `x` is `None` or a
string): true iff present and non-empty. -/
def pyTruthy : Option Str → Bool
  | none => false
  | some s => !s.isEmpty

/-- Conditional insertion into a dict (`if x: result[k] = x`): the field is
present iff the value is truthy. -/
def optPyTruthy : Option Str → Option Str
  | none => none
  | some s => if s.isEmpty then none else some s

/-- A UTC wall-clock instant as produced by `datetime.now(timezone.utc)`. -/
structure PyDateTime where
  year : Nat
  month : Nat
  day : Nat
  hour : Nat
  minute : Nat
  second : Nat
  microsecond : Nat
deriving DecidableEq

/-- Zero-pad the decimal digits of `n` to width `w`. -/
def padNum (w n : Nat) : Str :=
  List.replicate (w - (Nat.toDigits 10 n).length) '0' ++ Nat.toDigits 10 n

/-- The date-time part of `datetime.isoformat()` (fractional seconds omitted
when the microsecond field is zero, as in Python). -/
def isoBase (t : PyDateTime) : Str :=
  padNum 4 t.year ++ '-' ::
    (padNum 2 t.month ++ '-' ::
      (padNum 2 t.day ++ 'T' ::
        (padNum 2 t.hour ++ ':' ::
          (padNum 2 t.minute ++ ':' ::
            (padNum 2 t.second ++
              (if t.microsecond == 0 then [] else '.' :: padNum 6 t.microsecond))))))

/-- `datetime.now(timezone.utc).isoformat()`: for an aware UTC datetime the
string carries the numeric offset suffix `+00:00`. -/
def pyIsoformatUtc (t : PyDateTime) : Str := isoBase t ++ "+00:00".data

/-- The result dictionary of `YouTubeService.check_if_live`; absent dict keys
are `none`. -/
structure CheckResult where
  checked_at : Str
  channel_id : Option Str
  channel_id_or_url : Option Str
  is_live : Bool
  livestream_url : Option Str
  title : Option Str
  error : Option Str
deriving DecidableEq

/-- `YouTubeService.check_if_live` (youtube_service.py lines 40-93): stamp
`checked_at` with `isoformat() + "Z"`, resolve the channel id (a resolution
failure is caught and recorded with the raw original input), then run the
live-status check and copy its truthy components into the dict. -/
def check_if_live (world : World) (now : PyDateTime) (channel_id_or_url : Str) :
    CheckResult :=
  let checked_at := pyIsoformatUtc now ++ ['Z']
  match (extract_channel_id_from_url world channel_id_or_url).result with
  | .ok cid =>
    let r := check_channel_live_status world cid
    ⟨checked_at, some cid, none, r.is_live,
      optPyTruthy r.livestream_url, optPyTruthy r.title, optPyTruthy r.error⟩
  | .error e =>
    ⟨checked_at, none, some channel_id_or_url, false, none, none, some e⟩

/-- A notification handed to the notifier by the scheduler: either
`notify_live_stream(livestream_url, title)` or `notify_error(error)`. -/
inductive Notification where
  | liveStream (livestream_url : Str) (title : Str)
  | errorMsg (msg : Str)
deriving DecidableEq

/-- `check_channel` (scheduler.py lines 14-27): skip when the monitored
channel id is unset or empty; otherwise run the live-status check and notify
an error, or notify the live stream when live with url and title all truthy. -/
def check_channel (monitored : Option Str) (world : World) : List Notification :=
  match monitored with
  | none => []
  | some cid =>
    if cid.isEmpty then []
    else
      let r := check_channel_live_status world cid
      if pyTruthy r.error then [.errorMsg (r.error.getD [])]
      else if r.is_live && pyTruthy r.livestream_url && pyTruthy r.title then
        [.liveStream (r.livestream_url.getD []) (r.title.getD [])]
      else []

/-- `run_scheduled_task` (scheduler.py lines 30-38) abstracted over time: one
entry of `worlds` per timer tick, collecting the notifications sent. -/
def run_scheduled_task (monitored : Option Str) (worlds : List World) :
    List Notification :=
  (worlds.map (check_channel monitored)).flatten

/-- Number of live-stream notifications in a notification sequence. -/
def countLive (l : List Notification) : Nat :=
  (l.filter fun n =>
    match n with
    | .liveStream _ _ => true
    | .errorMsg _ => false).length

/-- Modelled from the spec: a (permissive, purely syntactic) recognizer of
ISO-8601 UTC timestamps, for comparing the produced `checked_at` strings with
the spec's words "a valid ISO-8601 UTC timestamp".  It accepts
`YYYY-MM-DDThh:mm:ss`, an optional fractional-second part, and exactly one
time-zone designator (`Z` or a numeric `+hh:mm`/`-hh:mm` offset); every valid
ISO-8601 extended-format timestamp is of this shape, so a string this
recognizer rejects is not a valid ISO-8601 timestamp. -/
def eatDigits : Nat → Str → Option Str
  | 0, s => some s
  | _ + 1, [] => none
  | n + 1, c :: s => if c.isDigit then eatDigits n s else none

/-- Consume one expected character. -/
def eatChar (c : Char) : Str → Option Str
  | [] => none
  | d :: s => if d == c then some s else none

/-- Drop a maximal run of digits. -/
def dropDigits : Str → Str
  | [] => []
  | c :: s => if c.isDigit then dropDigits s else c :: s

/-- Consume an optional fractional-second part: a dot followed by at least
one digit, or nothing. -/
def eatFracOpt (s : Str) : Option Str :=
  match s with
  | '.' :: c :: rest => if c.isDigit then some (dropDigits (c :: rest)) else none
  | '.' :: [] => none
  | _ => some s

/-- Is the remaining input exactly one time-zone designator? -/
def chkTz (s : Str) : Bool :=
  match s with
  | ['Z'] => true
  | c :: rest =>
    (c == '+' || c == '-') &&
      (match (eatDigits 2 rest).bind (eatChar ':') with
       | some r => eatDigits 2 r == some []
       | none => false)
  | [] => false

/-- Modelled from the spec: the ISO-8601 UTC timestamp check itself (see
`eatDigits` for the grammar accepted). -/
def specValidIso8601UtcTimestamp (s : Str) : Bool :=
  match (((((((((((eatDigits 4 s).bind (eatChar '-')).bind (eatDigits 2)).bind
      (eatChar '-')).bind (eatDigits 2)).bind (eatChar 'T')).bind
      (eatDigits 2)).bind (eatChar ':')).bind (eatDigits 2)).bind
      (eatChar ':')).bind (eatDigits 2)).bind eatFracOpt with
  | some rest => chkTz rest
  | none => false

/-- The property the spec ascribes to a substring-step result: `m` occurs in
`s` as a full channel-id-pattern match and no such match starts earlier. -/
def leftmostChanId (s m : Str) : Prop :=
  ∃ pre post, s = pre ++ m ++ post ∧ fullMatchChannelId m = true ∧
    ∀ pre' m' post', s = pre' ++ m' ++ post' → fullMatchChannelId m' = true →
      pre.length ≤ pre'.length

/-- Whether the run of the live-status check hits a failure: a fetch failure
(transport error, non-success status, or any other exception) or a parse
failure on the fetched page. -/
def detectFailure (world : World) (cid : Str) : Bool :=
  match world (live_url cid) with
  | .requestError _ => true
  | .otherError _ => true
  | .page doc =>
    match parse_channel_page doc with
    | .ok _ => false
    | .error _ => true

/-- A well-formed channel identifier used as concrete input in witnesses. -/
def demoCid : Str := "UCj-Xm8j6WBgKY8OG7s9r2vQ".data

/-- A channel URL already containing the identifier. -/
def demoChanUrl : Str := "https://www.youtube.com/channel/UCj-Xm8j6WBgKY8OG7s9r2vQ".data

/-- A world in which every fetch fails with a transport error. -/
def demoErrWorld : World := fun _ => Fetch.requestError "boom".data

/-- A live channel page: canonical link targets a watch URL, title present. -/
def demoLiveDoc : Document :=
  ⟨some "https://www.youtube.com/watch?v=czoEAKX9aaM".data, some "Morning Show".data⟩

/-- A world in which every fetch returns the live page. -/
def demoLiveWorld : World := fun _ => Fetch.page demoLiveDoc

/-- A world whose single page is the channel page for `demoCid`, used to
exercise the fetch-fallback path of the resolver. -/
def demoHandleWorld : World := fun _ => Fetch.page ⟨some demoChanUrl, none⟩

/-- A fixed wall-clock instant for concrete evaluation of the timestamp. -/
def demoInstant : PyDateTime := ⟨2026, 10, 12, 9, 0, 0, 0⟩

/-- Whether the result of one live-status check makes the scheduler send a
live-stream notification: no truthy error, live, and url and title truthy. -/
def liveNotifiable (r : LiveStatus) : Bool :=
  !pyTruthy r.error && r.is_live && pyTruthy r.livestream_url && pyTruthy r.title

/-- A live page with no title metadata, for the C10 witness. -/
def demoNoTitleWorld : World :=
  fun _ => Fetch.page ⟨some "https://www.youtube.com/watch?v=czoEAKX9aaM".data, none⟩

/-- A page whose canonical link points back to a channel URL (not a watch
URL), for the C9 witness. -/
def demoNotLiveDoc : Document :=
  ⟨some "https://www.youtube.com/channel/UC101o-vQ2iOj9vr00JUlyKw".data, none⟩

/-- A world serving the not-live page. -/
def demoNotLiveWorld : World := fun _ => Fetch.page demoNotLiveDoc

lemma UC_data_eq : "UC".data = ['U', 'C'] := rfl

lemma strBegins_iff (p : Str) : ∀ s, strBegins p s = true ↔ ∃ t, s = p ++ t := by
  induction p with
  | nil => intro s; simp [strBegins]
  | cons a ps ih =>
    intro s
    cases s with
    | nil => simp [strBegins]
    | cons c cs =>
      simp only [strBegins, Bool.and_eq_true, beq_iff_eq, ih, List.cons_append]
      constructor
      · rintro ⟨rfl, t, rfl⟩; exact ⟨t, rfl⟩
      · rintro ⟨t, h⟩
        injection h with h1 h2
        exact ⟨h1.symm, t, h2⟩

lemma isEmpty_false_of_ne_nil {l : Str} (h : l ≠ []) : l.isEmpty = false := by
  cases l with
  | nil => exact absurd rfl h
  | cons a t => rfl

lemma fullMatch_parts {m : Str} (h : fullMatchChannelId m = true) :
    ∃ u, m = 'U' :: 'C' :: u ∧ u.length = 22 ∧ u.all isIdChar = true := by
  unfold fullMatchChannelId at h
  simp only [Bool.and_eq_true] at h
  obtain ⟨⟨h1, h2⟩, h3⟩ := h
  obtain ⟨t, rfl⟩ := (strBegins_iff _ _).mp h2
  refine ⟨t, by simp [UC_data_eq], ?_, ?_⟩
  · have hlen : ("UC".data ++ t).length = 24 := beq_iff_eq.mp h1
    simp [UC_data_eq] at hlen
    omega
  · simpa [UC_data_eq] using h3

lemma fullMatch_of_parts {u : Str} (hl : u.length = 22) (ha : u.all isIdChar = true) :
    fullMatchChannelId ('U' :: 'C' :: u) = true := by
  unfold fullMatchChannelId
  simp [UC_data_eq, strBegins, hl, ha]

lemma takeChannelIdAt_eq_some {s m : Str} :
    takeChannelIdAt s = some m ↔
      fullMatchChannelId m = true ∧ ∃ rest, s = m ++ rest := by
  constructor
  · intro h
    unfold takeChannelIdAt at h
    split at h
    case isTrue hc =>
      simp only [Bool.and_eq_true] at hc
      obtain ⟨⟨h1, h2⟩, h3⟩ := hc
      obtain ⟨t, rfl⟩ := (strBegins_iff _ _).mp h1
      have hdrop : (("UC".data ++ t).drop 2) = t := by simp [UC_data_eq]
      rw [hdrop] at h2 h3 h
      have h2' : (t.take 22).length = 22 := beq_iff_eq.mp h2
      have hm : m = 'U' :: 'C' :: t.take 22 := by
        have := h
        simp only [Option.some.injEq] at this
        rw [← this]; simp [UC_data_eq]
      subst hm
      refine ⟨fullMatch_of_parts h2' h3, t.drop 22, ?_⟩
      simp [UC_data_eq, List.take_append_drop]
    case isFalse => exact absurd h (by simp)
  · rintro ⟨hm, rest, rfl⟩
    obtain ⟨u, rfl, hl, ha⟩ := fullMatch_parts hm
    unfold takeChannelIdAt
    have hdrop : ((('U' :: 'C' :: u) ++ rest).drop 2) = u ++ rest := by simp
    rw [hdrop]
    have htake : (u ++ rest).take 22 = u := by rw [← hl, List.take_left]
    rw [htake]
    simp [UC_data_eq, strBegins, hl, ha]

lemma searchChannelId_matches : ∀ {s m : Str},
    searchChannelId s = some m → fullMatchChannelId m = true := by
  intro s
  induction s with
  | nil => intro m h; simp [searchChannelId] at h
  | cons c t ih =>
    intro m h
    rw [searchChannelId] at h
    cases htake : takeChannelIdAt (c :: t) with
    | some m0 =>
      rw [htake] at h
      simp only [Option.some.injEq] at h
      rw [← h]
      exact (takeChannelIdAt_eq_some.mp htake).1
    | none =>
      rw [htake] at h
      exact ih h

lemma searchChannelId_leftmost : ∀ {s m : Str},
    searchChannelId s = some m → leftmostChanId s m := by
  intro s
  induction s with
  | nil => intro m h; simp [searchChannelId] at h
  | cons c t ih =>
    intro m h
    rw [searchChannelId] at h
    cases htake : takeChannelIdAt (c :: t) with
    | some m0 =>
      rw [htake] at h
      simp only [Option.some.injEq] at h
      subst h
      obtain ⟨hfull, rest, hs⟩ := takeChannelIdAt_eq_some.mp htake
      exact ⟨[], rest, by simpa using hs, hfull, fun pre' m' post' _ _ => Nat.zero_le _⟩
    | none =>
      rw [htake] at h
      obtain ⟨pre, post, hs, hfull, hmin⟩ := ih h
      refine ⟨c :: pre, post, by simp [hs], hfull, ?_⟩
      intro pre' m' post' heq hm'
      cases pre' with
      | nil =>
        exfalso
        simp only [List.nil_append] at heq
        have : takeChannelIdAt (c :: t) = some m' :=
          takeChannelIdAt_eq_some.mpr ⟨hm', post', heq⟩
        rw [this] at htake
        exact Option.noConfusion htake
      | cons c' pre'' =>
        simp only [List.cons_append] at heq
        injection heq with h1 h2
        simp only [List.length_cons]
        exact Nat.succ_le_succ (hmin pre'' m' post' h2 hm')

lemma searchChannelId_complete (pre : Str) : ∀ m post s, s = pre ++ m ++ post →
    fullMatchChannelId m = true → ∃ m0, searchChannelId s = some m0 := by
  induction pre with
  | nil =>
    intro m post s hs hm
    obtain ⟨u, rfl, hl, ha⟩ := fullMatch_parts hm
    subst hs
    have htake : takeChannelIdAt ('U' :: 'C' :: (u ++ post)) = some ('U' :: 'C' :: u) :=
      takeChannelIdAt_eq_some.mpr ⟨fullMatch_of_parts hl ha, post, by simp⟩
    refine ⟨'U' :: 'C' :: u, ?_⟩
    simp only [List.nil_append, List.cons_append]
    rw [searchChannelId, htake]
  | cons c pre1 ih =>
    intro m post s hs hm
    subst hs
    simp only [List.cons_append]
    cases htake : takeChannelIdAt (c :: (pre1 ++ m ++ post)) with
    | some m0 => exact ⟨m0, by rw [searchChannelId, htake]⟩
    | none =>
      obtain ⟨m0, h0⟩ := ih m post (pre1 ++ m ++ post) rfl hm
      exact ⟨m0, by rw [searchChannelId, htake]; exact h0⟩

lemma parse_error_msg {doc : Document} {m : Str} (h : parse_channel_page doc = .error m) :
    m = "Failed to parse channel page: Could not find canonical link in channel page".data := by
  cases hc : doc.canonical with
  | none =>
    simp only [parse_channel_page, hc, Except.error.injEq] at h
    exact h.symm
  | some href =>
    simp only [parse_channel_page, hc] at h
    split at h
    · simp only [Except.error.injEq] at h
      exact h.symm
    · cases hs : searchWatchId href <;> simp [hs] at h

lemma parse_ok_url {doc : Document} {r : ParseOut} (h : parse_channel_page doc = .ok r)
    (hl : r.is_live = true) : r.livestream_url.isSome = true := by
  cases hc : doc.canonical with
  | none => simp [parse_channel_page, hc] at h
  | some href =>
    simp only [parse_channel_page, hc] at h
    split at h
    · simp at h
    · cases hs : searchWatchId href <;> simp only [hs, Except.ok.injEq] at h
      · rw [← h] at hl
        simp at hl
      · rw [← h]
        rfl

lemma detector_error_ne_nil {world : World} {cid m : Str}
    (h : (check_channel_live_status world cid).error = some m) : m ≠ [] := by
  cases hw : world (live_url cid) with
  | requestError m0 =>
    simp only [check_channel_live_status, hw, Option.some.injEq] at h
    rw [← h]
    have hne : "Network error: ".data ≠ ([] : Str) := by decide
    exact fun hcon => hne (List.append_eq_nil.mp hcon).1
  | otherError m0 =>
    simp only [check_channel_live_status, hw, Option.some.injEq] at h
    rw [← h]
    have hne : "Unexpected error: ".data ≠ ([] : Str) := by decide
    exact fun hcon => hne (List.append_eq_nil.mp hcon).1
  | page doc =>
    simp only [check_channel_live_status, hw] at h
    cases hp : parse_channel_page doc with
    | ok r => simp [hp] at h
    | error m0 =>
      simp only [hp, Option.some.injEq] at h
      rw [← h, parse_error_msg hp]
      decide

lemma detector_live_no_error {world : World} {cid : Str}
    (h : (check_channel_live_status world cid).is_live = true) :
    (check_channel_live_status world cid).error = none := by
  cases hw : world (live_url cid) with
  | requestError m0 => simp [check_channel_live_status, hw] at h
  | otherError m0 => simp [check_channel_live_status, hw] at h
  | page doc =>
    simp only [check_channel_live_status, hw] at h ⊢
    cases hp : parse_channel_page doc with
    | ok r => simp [hp]
    | error m0 => simp [hp] at h

/-- C1: the live-status check is total — for every channel identifier and
every outcome of the fetch and parse steps, `check_channel_live_status`
returns a result value (in this embedding it is a total function into
`LiveStatus`), the error component is set exactly when the fetch or the
parse step failed, and any error message is non-empty. -/
theorem claim_C1_detector_total (world : World) (cid : Str) :
    (check_channel_live_status world cid).error.isSome = detectFailure world cid ∧
    (∀ m, (check_channel_live_status world cid).error = some m → m ≠ []) := by
  refine ⟨?_, fun m h => detector_error_ne_nil h⟩
  cases hw : world (live_url cid) with
  | requestError m0 => simp [check_channel_live_status, detectFailure, hw]
  | otherError m0 => simp [check_channel_live_status, detectFailure, hw]
  | page doc =>
    cases hp : parse_channel_page doc with
    | ok r => simp [check_channel_live_status, detectFailure, hw, hp]
    | error m0 => simp [check_channel_live_status, detectFailure, hw, hp]

theorem claim_C1_witness :
    (check_channel_live_status (fun _ => Fetch.requestError "boom".data)
      "UCj-Xm8j6WBgKY8OG7s9r2vQ".data).error = some "Network error: boom".data ∧
    ((check_channel_live_status (fun _ => Fetch.requestError "boom".data)
        "UCj-Xm8j6WBgKY8OG7s9r2vQ".data).error.isSome =
      detectFailure (fun _ => Fetch.requestError "boom".data) "UCj-Xm8j6WBgKY8OG7s9r2vQ".data ∧
      ∀ m, (check_channel_live_status (fun _ => Fetch.requestError "boom".data)
        "UCj-Xm8j6WBgKY8OG7s9r2vQ".data).error = some m → m ≠ []) :=
  ⟨by decide,
    claim_C1_detector_total (fun _ => Fetch.requestError "boom".data)
      "UCj-Xm8j6WBgKY8OG7s9r2vQ".data⟩

/-- C2: detector result invariant — `is_live = true` implies the livestream
URL is present, and a present error implies `is_live = false` with livestream
URL and title both absent. -/
theorem claim_C2_result_invariant (world : World) (cid : Str) :
    ((check_channel_live_status world cid).is_live = true →
      (check_channel_live_status world cid).livestream_url.isSome = true) ∧
    (∀ e, (check_channel_live_status world cid).error = some e →
      (check_channel_live_status world cid).is_live = false ∧
      (check_channel_live_status world cid).livestream_url = none ∧
      (check_channel_live_status world cid).title = none) := by
  constructor
  · intro h
    cases hw : world (live_url cid) with
    | requestError m0 => simp [check_channel_live_status, hw] at h
    | otherError m0 => simp [check_channel_live_status, hw] at h
    | page doc =>
      simp only [check_channel_live_status, hw] at h ⊢
      cases hp : parse_channel_page doc with
      | ok r =>
        simp only [hp] at h ⊢
        exact parse_ok_url hp h
      | error m0 => simp [hp] at h
  · intro e he
    cases hw : world (live_url cid) with
    | requestError m0 => simp [check_channel_live_status, hw]
    | otherError m0 => simp [check_channel_live_status, hw]
    | page doc =>
      simp only [check_channel_live_status, hw] at he ⊢
      cases hp : parse_channel_page doc with
      | ok r => simp [hp] at he
      | error m0 => simp [hp]

/-- C5: a string that, after stripping surrounding whitespace, exactly
matches the channel-identifier pattern is returned unchanged (stripped), no
fetch is performed, and the output does not depend on the external world —
repeated invocation yields identical output with no observable side effect. -/
theorem claim_C5_direct_id (world world' : World) (s : Str)
    (h : fullMatchChannelId (pyStrip s) = true) :
    (extract_channel_id_from_url world s).result = .ok (pyStrip s) ∧
    (extract_channel_id_from_url world s).fetches = [] ∧
    extract_channel_id_from_url world s = extract_channel_id_from_url world' s := by
  refine ⟨?_, ?_, ?_⟩ <;> simp [extract_channel_id_from_url, h]

theorem claim_C5_witness :
    fullMatchChannelId (pyStrip " UCj-Xm8j6WBgKY8OG7s9r2vQ ".data) = true ∧
    ((extract_channel_id_from_url demoErrWorld " UCj-Xm8j6WBgKY8OG7s9r2vQ ".data).result =
        .ok (pyStrip " UCj-Xm8j6WBgKY8OG7s9r2vQ ".data) ∧
      (extract_channel_id_from_url demoErrWorld " UCj-Xm8j6WBgKY8OG7s9r2vQ ".data).fetches = [] ∧
      extract_channel_id_from_url demoErrWorld " UCj-Xm8j6WBgKY8OG7s9r2vQ ".data =
        extract_channel_id_from_url demoLiveWorld " UCj-Xm8j6WBgKY8OG7s9r2vQ ".data) :=
  ⟨by decide,
    claim_C5_direct_id demoErrWorld demoLiveWorld " UCj-Xm8j6WBgKY8OG7s9r2vQ ".data (by decide)⟩

/-- C6: a (stripped) input that does not entirely match the pattern but
contains a pattern occurrence resolves, without any fetch, to the leftmost
24-character match. -/
theorem claim_C6_substring_id (world : World) (s : Str)
    (hnot : fullMatchChannelId (pyStrip s) = false)
    (hocc : ∃ pre m post, pyStrip s = pre ++ m ++ post ∧ fullMatchChannelId m = true) :
    ∃ m, (extract_channel_id_from_url world s).result = .ok m ∧
      (extract_channel_id_from_url world s).fetches = [] ∧
      leftmostChanId (pyStrip s) m := by
  obtain ⟨pre, m0, post, hs, hm⟩ := hocc
  obtain ⟨m1, h1⟩ := searchChannelId_complete pre m0 post (pyStrip s) hs hm
  refine ⟨m1, ?_, ?_, searchChannelId_leftmost h1⟩ <;>
    simp [extract_channel_id_from_url, hnot, h1]

theorem claim_C6_witness :
    fullMatchChannelId (pyStrip demoChanUrl) = false ∧
    pyStrip demoChanUrl = "https://www.youtube.com/channel/".data ++ demoCid ++ [] ∧
    fullMatchChannelId demoCid = true ∧
    (∃ m, (extract_channel_id_from_url demoErrWorld demoChanUrl).result = .ok m ∧
      (extract_channel_id_from_url demoErrWorld demoChanUrl).fetches = [] ∧
      leftmostChanId (pyStrip demoChanUrl) m) :=
  ⟨by decide, by decide, by decide,
    claim_C6_substring_id demoErrWorld demoChanUrl (by decide)
      ⟨"https://www.youtube.com/channel/".data, demoCid, [], by decide, by decide⟩⟩

lemma fetch_ok_matches {world : World} {u cid : Str}
    (h : fetch_channel_id_from_web world u = .ok cid) : fullMatchChannelId cid = true := by
  cases hw : world u with
  | requestError m0 => simp [fetch_channel_id_from_web, hw] at h
  | otherError m0 => simp [fetch_channel_id_from_web, hw] at h
  | page doc =>
    simp only [fetch_channel_id_from_web, hw] at h
    cases hc : doc.canonical with
    | none => simp [hc] at h
    | some href =>
      simp only [hc] at h
      split at h
      · simp at h
      · cases hs : searchChannelId href with
        | none => simp [hs] at h
        | some cid0 =>
          simp only [hs, Except.ok.injEq] at h
          rw [← h]
          exact searchChannelId_matches hs

lemma resolveFetch_ok {world : World} {u m : Str}
    (h : (resolveFetch world u).result = .ok m) : fullMatchChannelId m = true := by
  unfold resolveFetch at h
  cases hf : fetch_channel_id_from_web world u with
  | ok cid =>
    rw [hf] at h
    simp only [Except.ok.injEq] at h
    rw [← h]
    exact fetch_ok_matches hf
  | error e => cases e <;> rw [hf] at h <;> simp at h

lemma resolveTry_ok {world : World} {u m : Str}
    (h : (resolveTry world u).result = .ok m) : fullMatchChannelId m = true := by
  unfold resolveTry at h
  split_ifs at h <;> exact resolveFetch_ok h

/-- C7: every success value of the resolver, on any of its paths (direct
match, substring match, or any of the fetch-fallback paths through
`fetch_channel_id_from_web`), exactly matches the channel-identifier
pattern. -/
theorem claim_C7_output_invariant (world : World) (s m : Str)
    (h : (extract_channel_id_from_url world s).result = .ok m) :
    fullMatchChannelId m = true := by
  simp only [extract_channel_id_from_url] at h
  by_cases hf : fullMatchChannelId (pyStrip s) = true
  · simp only [hf, if_true] at h
    simp only [Except.ok.injEq] at h
    rw [← h]
    exact hf
  · simp only [hf, if_false, Bool.false_eq_true] at h
    cases hs : searchChannelId (pyStrip s) with
    | some cid =>
      rw [hs] at h
      simp only [Except.ok.injEq] at h
      rw [← h]
      exact searchChannelId_matches hs
    | none =>
      rw [hs] at h
      exact resolveTry_ok h

theorem claim_C7_witness :
    (extract_channel_id_from_url demoHandleWorld "@RailCowGirl".data).result = .ok demoCid ∧
    (extract_channel_id_from_url demoHandleWorld "@RailCowGirl".data).fetches =
      ["https://www.youtube.com/@RailCowGirl".data] ∧
    fullMatchChannelId demoCid = true :=
  ⟨by decide, by decide,
    claim_C7_output_invariant demoHandleWorld "@RailCowGirl".data demoCid (by decide)⟩

/-- C8: every check result carries exactly one of `channel_id` (on successful
resolution, holding the resolved identifier) and `channel_id_or_url` (on
failed resolution, holding the raw original input) — never both, never
neither. -/
theorem claim_C8_exactly_one_id_field (world : World) (now : PyDateTime) (s : Str) :
    (∃ cid, (extract_channel_id_from_url world s).result = .ok cid ∧
      (check_if_live world now s).channel_id = some cid ∧
      (check_if_live world now s).channel_id_or_url = none) ∨
    (∃ e, (extract_channel_id_from_url world s).result = .error e ∧
      (check_if_live world now s).channel_id = none ∧
      (check_if_live world now s).channel_id_or_url = some s) := by
  cases hr : (extract_channel_id_from_url world s).result with
  | ok cid =>
    exact Or.inl ⟨cid, rfl, by simp [check_if_live, hr], by simp [check_if_live, hr]⟩
  | error e =>
    exact Or.inr ⟨e, rfl, by simp [check_if_live, hr], by simp [check_if_live, hr]⟩

/-- C3: the `checked_at` field is generated at the start of the check on
every path, but it is not a valid ISO-8601 UTC timestamp: the source appends
a literal `Z` to `datetime.now(timezone.utc).isoformat()`, which already ends
with the numeric offset `+00:00`, so every produced value ends in `+00:00Z`
(two time-zone designators).  The last conjunct shows the recognizer accepts
a correct ISO-8601 UTC timestamp, so the rejection is not vacuous. -/
theorem claim_C3_checked_at_not_iso8601 :
    (∀ (world : World) (now : PyDateTime) (s : Str),
      (check_if_live world now s).checked_at = isoBase now ++ "+00:00Z".data) ∧
    (check_if_live demoErrWorld demoInstant demoCid).checked_at =
      "2026-10-12T09:00:00+00:00Z".data ∧
    specValidIso8601UtcTimestamp "2026-10-12T09:00:00+00:00Z".data = false ∧
    specValidIso8601UtcTimestamp "2026-10-12T09:00:00Z".data = true := by
  refine ⟨?_, by decide, by decide, by decide⟩
  intro world now s
  have hz : "+00:00".data ++ ['Z'] = "+00:00Z".data := by decide
  cases hr : (extract_channel_id_from_url world s).result <;>
    simp [check_if_live, hr, pyIsoformatUtc, List.append_assoc, hz]

lemma pyTruthy_some {o : Option Str} (h : pyTruthy o = true) :
    ∃ s, o = some s ∧ s ≠ [] := by
  cases o with
  | none => simp [pyTruthy] at h
  | some s =>
    refine ⟨s, rfl, ?_⟩
    cases s with
    | nil => simp [pyTruthy] at h
    | cons a t => simp

lemma detector_error_not_truthy {world : World} {cid : Str}
    (h : pyTruthy (check_channel_live_status world cid).error = false) :
    (check_channel_live_status world cid).error = none := by
  cases he : (check_channel_live_status world cid).error with
  | none => rfl
  | some m =>
    have hne := detector_error_ne_nil he
    rw [he] at h
    simp [pyTruthy, isEmpty_false_of_ne_nil hne] at h

lemma countLive_append (a b : List Notification) :
    countLive (a ++ b) = countLive a + countLive b := by
  simp [countLive, List.filter_append]

lemma countLive_check_channel (cid : Str) (h : cid ≠ []) (world : World) :
    countLive (check_channel (some cid) world) =
      if liveNotifiable (check_channel_live_status world cid) then 1 else 0 := by
  have hE : cid.isEmpty = false := isEmpty_false_of_ne_nil h
  cases he : pyTruthy (check_channel_live_status world cid).error <;>
    cases hcond : ((check_channel_live_status world cid).is_live &&
        pyTruthy (check_channel_live_status world cid).livestream_url &&
        pyTruthy (check_channel_live_status world cid).title) <;>
      simp [check_channel, hE, he, hcond, countLive, liveNotifiable]

/-- C4 counterexample: with the monitored channel set and the same broadcast
live at two consecutive scheduled checks (identical fetched page, identical
watch URL), the poller sends a live-stream notification at both checks — one
per polling interval, not at most one per broadcast. -/
theorem claim_C4_counterexample :
    run_scheduled_task (some demoCid) [demoLiveWorld, demoLiveWorld] =
      [Notification.liveStream "https://www.youtube.com/watch?v=czoEAKX9aaM".data
        "Morning Show".data,
       Notification.liveStream "https://www.youtube.com/watch?v=czoEAKX9aaM".data
        "Morning Show".data] ∧
    ¬ countLive (run_scheduled_task (some demoCid) [demoLiveWorld, demoLiveWorld]) ≤ 1 := by
  exact ⟨by decide, by decide⟩

/-- C4 amended: the poller keeps no state across checks — it sends exactly
one live-stream notification for every scheduled check whose result is live
with a truthy livestream URL and title and no truthy error, so a broadcast
that stays live is re-notified at every polling interval. -/
theorem claim_C4_amended_notify_per_check (cid : Str) (h : cid ≠ [])
    (worlds : List World) :
    countLive (run_scheduled_task (some cid) worlds) =
      (worlds.filter fun w => liveNotifiable (check_channel_live_status w cid)).length := by
  induction worlds with
  | nil => rfl
  | cons w ws ih =>
    simp only [run_scheduled_task, List.map_cons, List.flatten_cons] at ih ⊢
    rw [countLive_append, countLive_check_channel cid h w, ih, List.filter_cons]
    cases hw : liveNotifiable (check_channel_live_status w cid) with
    | false => simp [hw]
    | true => simp [hw]; omega

theorem claim_C4_amended_witness :
    demoCid ≠ [] ∧
    countLive (run_scheduled_task (some demoCid) [demoLiveWorld, demoErrWorld]) =
      (([demoLiveWorld, demoErrWorld] : List World).filter fun w =>
        liveNotifiable (check_channel_live_status w demoCid)).length :=
  ⟨by decide, claim_C4_amended_notify_per_check demoCid (by decide) [demoLiveWorld, demoErrWorld]⟩

/-- C10: with the monitored channel configured, the poller sends no
notification at all when the check is live with a livestream URL but no
truthy title; a live-stream notification is sent only when `is_live`,
`livestream_url` and `title` are all present (and the error is absent); and
an error notification is sent whenever the check result carries an error. -/
theorem claim_C10_notification_conditions (cid : Str) (world : World) (h : cid ≠ []) :
    ((check_channel_live_status world cid).is_live = true →
      pyTruthy (check_channel_live_status world cid).livestream_url = true →
      pyTruthy (check_channel_live_status world cid).title = false →
      check_channel (some cid) world = []) ∧
    (∀ u t, Notification.liveStream u t ∈ check_channel (some cid) world →
      (check_channel_live_status world cid).is_live = true ∧
      (check_channel_live_status world cid).livestream_url = some u ∧ u ≠ [] ∧
      (check_channel_live_status world cid).title = some t ∧ t ≠ [] ∧
      (check_channel_live_status world cid).error = none) ∧
    (∀ e, (check_channel_live_status world cid).error = some e →
      check_channel (some cid) world = [Notification.errorMsg e]) := by
  have hE : cid.isEmpty = false := isEmpty_false_of_ne_nil h
  refine ⟨?_, ?_, ?_⟩
  · intro h1 h2 h3
    have herr : (check_channel_live_status world cid).error = none :=
      detector_live_no_error h1
    have hpt : pyTruthy (check_channel_live_status world cid).error = false := by
      rw [herr]; rfl
    simp [check_channel, hE, hpt, h1, h2, h3]
  · intro u t hmem
    cases he : pyTruthy (check_channel_live_status world cid).error with
    | true => simp [check_channel, hE, he] at hmem
    | false =>
      cases hcond : ((check_channel_live_status world cid).is_live &&
          pyTruthy (check_channel_live_status world cid).livestream_url &&
          pyTruthy (check_channel_live_status world cid).title) with
      | false => simp [check_channel, hE, he, hcond] at hmem
      | true =>
        simp only [Bool.and_eq_true] at hcond
        obtain ⟨⟨h1, h2⟩, h3⟩ := hcond
        obtain ⟨u0, hu0, hu0ne⟩ := pyTruthy_some h2
        obtain ⟨t0, ht0, ht0ne⟩ := pyTruthy_some h3
        simp [check_channel, hE, he, h1, h2, h3] at hmem
        obtain ⟨hu, ht⟩ := hmem
        subst hu
        subst ht
        rw [hu0, ht0]
        exact ⟨h1, by simp, hu0ne, by simp, ht0ne, detector_error_not_truthy he⟩
  · intro e he
    have hne := detector_error_ne_nil he
    simp [check_channel, hE, he, pyTruthy, isEmpty_false_of_ne_nil hne]

theorem claim_C10_witness :
    (check_channel_live_status demoNoTitleWorld demoCid).is_live = true ∧
    pyTruthy (check_channel_live_status demoNoTitleWorld demoCid).livestream_url = true ∧
    pyTruthy (check_channel_live_status demoNoTitleWorld demoCid).title = false ∧
    check_channel (some demoCid) demoNoTitleWorld = [] :=
  ⟨by decide, by decide, by decide,
    (claim_C10_notification_conditions demoCid demoNoTitleWorld (by decide)).1
      (by decide) (by decide) (by decide)⟩

/-- C9: when the fetched live page has a canonical link that is present and
non-empty but does not target a watch-page URL, the check returns a clean
not-live result: `is_live = false` with livestream URL, title and error all
absent. -/
theorem claim_C9_not_live_clean (world : World) (cid : Str) (doc : Document) (href : Str)
    (hw : world (live_url cid) = Fetch.page doc)
    (hc : doc.canonical = some href) (hne : href ≠ [])
    (hnw : searchWatchId href = none) :
    check_channel_live_status world cid = ⟨false, none, none, none⟩ := by
  have hE : href.isEmpty = false := isEmpty_false_of_ne_nil hne
  simp [check_channel_live_status, hw, parse_channel_page, hc, hE, hnw]

theorem claim_C9_witness :
    demoNotLiveWorld (live_url demoCid) = Fetch.page demoNotLiveDoc ∧
    demoNotLiveDoc.canonical =
      some "https://www.youtube.com/channel/UC101o-vQ2iOj9vr00JUlyKw".data ∧
    searchWatchId "https://www.youtube.com/channel/UC101o-vQ2iOj9vr00JUlyKw".data = none ∧
    check_channel_live_status demoNotLiveWorld demoCid = ⟨false, none, none, none⟩ :=
  ⟨rfl, rfl, by decide,
    claim_C9_not_live_clean demoNotLiveWorld demoCid demoNotLiveDoc
      "https://www.youtube.com/channel/UC101o-vQ2iOj9vr00JUlyKw".data
      rfl rfl (by decide) (by decide)⟩


theorem claim_C2_witness :
    (check_channel_live_status demoLiveWorld demoCid).is_live = true ∧
    (check_channel_live_status demoLiveWorld demoCid).livestream_url.isSome = true ∧
    (check_channel_live_status demoErrWorld demoCid).error = some "Network error: boom".data ∧
    ((check_channel_live_status demoErrWorld demoCid).is_live = false ∧
      (check_channel_live_status demoErrWorld demoCid).livestream_url = none ∧
      (check_channel_live_status demoErrWorld demoCid).title = none) :=
  ⟨by decide, (claim_C2_result_invariant demoLiveWorld demoCid).1 (by decide), by decide,
    (claim_C2_result_invariant demoErrWorld demoCid).2 "Network error: boom".data (by decide)⟩
